import Mathlib

/-!
Shallow embedding of the complaint-analysis core of `app.py` (functions
`process_complaint_data`, `perform_analysis`, `analyze_by_location`) together
with theorems checking the claims of the specification about it.

Modelling conventions:
- a pandas DataFrame of complaint records is a `List Row` (resp. `List TRow`
  after the translation step, whose `_en` cells may be missing, i.e. NaN,
  modelled as `Option String`);
- Python exceptions are values of `PyErr`, raised by returning `Except.error`;
  the boundary `try/except` of `process_complaint_data` is the `match` in
  `processComplaintData`;
- percentages are rounded to exactly 2 decimal places by the source
  (`.round(2)`, numpy ties-to-even); a rounded percentage is represented
  losslessly by its integer number of hundredths of a percent (`ℤ`), so the
  float value `66.67` is stored as `6667` and the bound `<= 100.00` reads
  `<= 10000`;
- the dynamic distinction between a pandas Series (which has `.head`) and a
  plain Python dict (which does not) is the inductive `PopPct`, because
  `analyze_by_location` stores `{}` in `individual_pop_percentages` and then
  calls `.head(20)` on it.
-/

namespace PopConv

/-- One row of the primary complaint table, with the seven required columns of
`process_complaint_data` (app.py line 63).  Cell values are opaque strings. -/
structure Row where
  category : String
  subcategory : String
  person_id : String
  household_id : String
  row_id : String
  island : String
  atoll : String
deriving DecidableEq

/-- A complaint row after the translation step: the derived `category_en` /
`subcategory_en` columns may hold a missing value (pandas NaN after an
unmatched left merge), modelled as `none`. -/
structure TRow extends Row where
  category_en : Option String
  subcategory_en : Option String
deriving DecidableEq

/-- One row of the optional translation table.  The `_en` cells are `Option`
so that an individually missing cell (NaN) is representable. -/
structure TransRow where
  category : String
  subcategory : String
  category_en : Option String
  subcategory_en : Option String
deriving DecidableEq

/-- The optional translation table.  `hasCategoryEn` / `hasSubcategoryEn`
record whether the table has the corresponding column at all: after the left
merge of app.py line 82, the merged frame has a `subcategory_en` column
exactly when the translation table does, and `df.get` (lines 84-85) falls
back to the original column only when the merged column is absent. -/
structure TransTable where
  hasCategoryEn : Bool
  hasSubcategoryEn : Bool
  entries : List TransRow
deriving DecidableEq

/-- One row of the optional population table, keyed by the location
identifier matched against the grouping column (app.py line 165).  The
totals are `none` when the cell is missing; a missing value never passes the
`> 0` guards of lines 176/179 (in Python, absent keys default to `0` and
`NaN > 0` is false), so `none` models both. -/
structure PopRow where
  location : String
  total_population : Option ℤ
  total_households : Option ℤ
deriving DecidableEq

/-- A raw rectangular table as produced by `pd.read_excel`: the list of
column names and, per data row, an association list from column name to cell
text. -/
structure RawTable where
  columns : List String
  rows : List (List (String × String))
deriving DecidableEq

/-- The outcome of `pd.read_excel` on the uploaded file: either a parse
failure (the exception text) or a table. -/
inductive RawInput where
  | malformed (msg : String)
  | wellFormed (t : RawTable)
deriving DecidableEq

/-- Python exceptions that the analysis pipeline can raise: the `ValueError`
of app.py line 67 (carrying the full list of missing required columns), a
parse failure of `pd.read_excel`, and the `AttributeError` raised by calling
`.head` on a plain dict (app.py lines 187/190). -/
inductive PyErr where
  | schemaError (missing : List String)
  | parseError (msg : String)
  | attributeError (msg : String)
deriving DecidableEq

/-- The `str(e)` conversion performed at the boundary (app.py line 104). -/
def PyErr.message : PyErr → String
  | PyErr.schemaError missing => s!"Missing required columns: {missing}"
  | PyErr.parseError m => m
  | PyErr.attributeError m => m

/-- The grouping dimension passed to `analyze_by_location` as `location_col`
(app.py lines 121 and 124). -/
inductive LocationCol where
  | atoll
  | island
deriving DecidableEq

/-- Reads the grouping column of a row, i.e. `df[location_col]`. -/
def LocationCol.colVal : LocationCol → TRow → String
  | LocationCol.atoll, r => r.atoll
  | LocationCol.island, r => r.island

/-- The dynamic type of `individual_pop_percentages` / `household_pop_percentages`
in `analyze_by_location`: either the initial empty Python dict `{}` (app.py
lines 173-174) or a pandas Series of percentages (lines 177/180). -/
inductive PopPct where
  | emptyDict
  | series (l : List (String × ℤ))
deriving DecidableEq

/-- The `.head(n)` call of app.py lines 187/190: defined on a Series, an
`AttributeError` on a plain dict. -/
def PopPct.headE : PopPct → Nat → Except PyErr (List (String × ℤ))
  | PopPct.emptyDict, _ =>
    Except.error (PyErr.attributeError "dict object has no attribute head")
  | PopPct.series l, n => Except.ok (l.take n)

/-- The per-location result record built at app.py lines 182-197.  Ranked
lists pair a subcategory label with a count (`ℕ`) or a rounded percentage in
hundredths of a percent (`ℤ`).  `population_info` is `none` for the empty
dict of line 163 and otherwise holds the two looked-up totals. -/
structure LocStats where
  subcategory_counts : List (String × Nat)
  subcategory_percentages : List (String × ℤ)
  individual_counts : List (String × Nat)
  individual_percentages : List (String × ℤ)
  individual_pop_percentages : List (String × ℤ)
  household_counts : List (String × Nat)
  household_percentages : List (String × ℤ)
  household_pop_percentages : List (String × ℤ)
  population_info : Option (Option ℤ × Option ℤ)
  total_complaints : Nat
  total_individuals : Nat
  total_households : Nat
deriving DecidableEq

/-- The result of `perform_analysis` (app.py lines 118-126). -/
structure Analysis where
  by_atoll : List (String × LocStats)
  by_island : List (String × LocStats)
deriving DecidableEq

/-- The dictionary returned by `process_complaint_data` (app.py lines 93-105):
on success the totals and data are present and `error` is absent, on failure
only `error` is present. -/
structure PCDResult where
  success : Bool
  data : Option Analysis
  total_complaints : Option Nat
  total_individuals : Option Nat
  total_households : Option Nat
  error : Option String
deriving DecidableEq

/-- Worker for `uniqueFirst`: keeps the first occurrence of each element,
skipping anything already seen. -/
def uniqueFirstAux {α : Type} [DecidableEq α] : List α → List α → List α
  | _, [] => []
  | seen, x :: xs =>
    if x ∈ seen then uniqueFirstAux seen xs
    else x :: uniqueFirstAux (x :: seen) xs

/-- Distinct elements of a list in order of first appearance: the behaviour
of `Series.unique()` (app.py line 143) and the key set of
`value_counts` / `groupby` restricted to present (non-NaN) values. -/
def uniqueFirst {α : Type} [DecidableEq α] (l : List α) : List α :=
  uniqueFirstAux [] l

/-- Descending-count comparison used to rank `(label, count)` pairs. -/
def countGE (a b : String × Nat) : Prop := b.2 ≤ a.2

instance : DecidableRel countGE := fun a b => inferInstanceAs (Decidable (b.2 ≤ a.2))

instance : IsTotal (String × Nat) countGE := ⟨fun a b => le_total b.2 a.2⟩

instance : IsTrans (String × Nat) countGE := ⟨fun _ _ _ h1 h2 => le_trans h2 h1⟩

/-- Sorts `(label, count)` pairs by descending count, as `value_counts()` and
`.sort_values(ascending=False)` do (app.py lines 149/153/158).  The source
leaves the relative order of equal counts implementation-defined; this
embedding fixes the deterministic stable order over first-appearance keys. -/
def sortByCountDesc (l : List (String × Nat)) : List (String × Nat) :=
  List.insertionSort countGE l

/-- Rounds `a / b` (for `0 < b`) to the nearest integer with ties to even,
the rounding numpy applies in `.round` on an exactly representable ratio. -/
def intRoundHalfEven (a b : ℤ) : ℤ :=
  if 2 * (a % b) < b then a / b
  else if b < 2 * (a % b) then a / b + 1
  else if (a / b) % 2 = 0 then a / b else a / b + 1

/-- A percentage `count / total * 100` rounded to 2 decimal places
(`.round(2)`), represented by its number of hundredths of a percent:
`round2(c / t * 100) * 100 = round(c * 10000 / t)` exactly. -/
def pctH (c : Nat) (t : ℤ) : ℤ := intRoundHalfEven ((c : ℤ) * 10000) t

/-- Element-wise `counts / total * 100` followed by `.round(2)` on a pandas
Series (app.py lines 150/155/160/177/180), in hundredths of a percent. -/
def pctOfH (counts : List (String × Nat)) (t : ℤ) : List (String × ℤ) :=
  counts.map (fun p => (p.1, pctH p.2 t))

/-- The required-column list of app.py line 63. -/
def requiredColumns : List String :=
  ["category", "subcategory", "person_id", "household_id", "row_id", "island", "atoll"]

/-- The missing-column computation of app.py line 64, preserving the order of
`requiredColumns`. -/
def missingColumns (t : RawTable) : List String :=
  requiredColumns.filter (fun c => c ∉ t.columns)

/-- Extracts one validated `Row` from a raw table row by column lookup. -/
def parseRow (cells : List (String × String)) : Row :=
  { category := (cells.lookup "category").getD ""
    subcategory := (cells.lookup "subcategory").getD ""
    person_id := (cells.lookup "person_id").getD ""
    household_id := (cells.lookup "household_id").getD ""
    row_id := (cells.lookup "row_id").getD ""
    island := (cells.lookup "island").getD ""
    atoll := (cells.lookup "atoll").getD "" }

/-- The schema validation of app.py lines 62-67: if any required column is
absent, raise `ValueError` naming the full missing list, else keep the rows. -/
def loadTable (t : RawTable) : Except PyErr (List Row) :=
  if missingColumns t ≠ [] then Except.error (PyErr.schemaError (missingColumns t))
  else Except.ok (t.rows.map parseRow)

/-- The `pd.read_excel` call of app.py line 60: a parse failure raises. -/
def readExcel : RawInput → Except PyErr RawTable
  | RawInput.malformed m => Except.error (PyErr.parseError m)
  | RawInput.wellFormed t => Except.ok t

/-- The left merge of app.py line 82: each complaint row is paired with every
translation entry whose `(category, subcategory)` matches it, or with `none`
(NaN right side) when no entry matches. -/
def mergeTranslation (df : List Row) (t : TransTable) : List (Row × Option TransRow) :=
  df.flatMap (fun r =>
    match t.entries.filter
        (fun e => e.category == r.category && e.subcategory == r.subcategory) with
    | [] => [(r, none)]
    | ms => ms.map (fun e => (r, some e)))

/-- The column-granularity fallback of app.py lines 84-85:
`df.get(subcategory_en, df[subcategory])` returns the merged column when
the translation table contributed it (so unmatched rows keep NaN), and falls
back to the original column only when the merged frame has no such column. -/
def translatedRow (t : TransTable) (pr : Row × Option TransRow) : TRow :=
  { toRow := pr.1
    category_en :=
      if t.hasCategoryEn then pr.2.bind TransRow.category_en else some pr.1.category
    subcategory_en :=
      if t.hasSubcategoryEn then pr.2.bind TransRow.subcategory_en else some pr.1.subcategory }

/-- Lines 79-88 of app.py: with a translation table, merge and apply the
column-level fallback; without one, copy the original columns unchanged. -/
def applyTranslations (df : List Row) (t? : Option TransTable) : List TRow :=
  match t? with
  | none =>
    df.map (fun r =>
      { toRow := r, category_en := some r.category, subcategory_en := some r.subcategory })
  | some t => (mergeTranslation df t).map (translatedRow t)

/-- Distinct present `subcategory_en` values of a group, in first-appearance
order: the index of `value_counts()` and the `groupby(subcategory_en)`
keys (pandas drops NaN keys). -/
def subcatKeys (g : List TRow) : List String :=
  uniqueFirst (g.filterMap (fun r => r.subcategory_en))

/-- The rows of a group carrying the given `subcategory_en` value. -/
def bySubcat (g : List TRow) (k : String) : List TRow :=
  g.filter (fun r => r.subcategory_en == some k)

/-- Number of distinct `person_id` values: `Series.nunique()`. -/
def nuniquePersons (g : List TRow) : Nat :=
  (uniqueFirst (g.map (fun r => r.person_id))).length

/-- Number of distinct `household_id` values: `Series.nunique()`. -/
def nuniqueHouseholds (g : List TRow) : Nat :=
  (uniqueFirst (g.map (fun r => r.household_id))).length

/-- Unsorted `(subcategory, complaint count)` pairs of a location group. -/
def subcategoryPairs (g : List TRow) : List (String × Nat) :=
  (subcatKeys g).map (fun k => (k, g.countP (fun r => r.subcategory_en == some k)))

/-- App.py line 149: the `value_counts()` of the subcategory_en column. -/
def subcategoryCounts (g : List TRow) : List (String × Nat) :=
  sortByCountDesc (subcategoryPairs g)

/-- Unsorted `(subcategory, distinct person count)` pairs of a group. -/
def individualPairs (g : List TRow) : List (String × Nat) :=
  (subcatKeys g).map (fun k => (k, nuniquePersons (bySubcat g k)))

/-- App.py line 153: `groupby(subcategory_en)` then `nunique()` of person_id,
sorted by descending count. -/
def individualCounts (g : List TRow) : List (String × Nat) :=
  sortByCountDesc (individualPairs g)

/-- Unsorted `(subcategory, distinct household count)` pairs of a group. -/
def householdPairs (g : List TRow) : List (String × Nat) :=
  (subcatKeys g).map (fun k => (k, nuniqueHouseholds (bySubcat g k)))

/-- App.py line 158: `groupby(subcategory_en)` then `nunique()` of household_id,
sorted by descending count. -/
def householdCounts (g : List TRow) : List (String × Nat) :=
  sortByCountDesc (householdPairs g)

/-- App.py lines 163-170: find the first population row whose location cell
matches this location; `none` is the empty `population_info` dict. -/
def popLookup (pop? : Option (List PopRow)) (loc : String) : Option (Option ℤ × Option ℤ) :=
  match pop? with
  | none => none
  | some rows =>
    match rows.filter (fun p => p.location == loc) with
    | [] => none
    | p :: _ => some (p.total_population, p.total_households)

/-- The value tested by the guard on total_population (app.py line 176). -/
def tpOf (popInfo : Option (Option ℤ × Option ℤ)) : Option ℤ :=
  popInfo.bind (fun p => p.1)

/-- The value tested by the guard on total_households (app.py line 179). -/
def thOf (popInfo : Option (Option ℤ × Option ℤ)) : Option ℤ :=
  popInfo.bind (fun p => p.2)

/-- App.py lines 173-180: the population-percentage variable starts as the
empty dict and becomes a Series only when the guarded total is positive (an
absent entry defaults to 0 and a missing value compares false). -/
def popPct (counts : List (String × Nat)) (v? : Option ℤ) : PopPct :=
  match v? with
  | some v => if 0 < v then PopPct.series (pctOfH counts v) else PopPct.emptyDict
  | none => PopPct.emptyDict

/-- The body of the per-location loop of `analyze_by_location` (app.py lines
145-197) for one location group `g`.  Only the two `.head(20)` calls on the
population-percentage variables can raise (`AttributeError` when the variable
is still the empty dict); they are evaluated in source order, individual
before household. -/
def locStats (g : List TRow) (popInfo : Option (Option ℤ × Option ℤ)) :
    Except PyErr LocStats :=
  match (popPct (individualCounts g) (tpOf popInfo)).headE 20 with
  | Except.error e => Except.error e
  | Except.ok ippHead =>
    match (popPct (householdCounts g) (thOf popInfo)).headE 20 with
    | Except.error e => Except.error e
    | Except.ok hppHead =>
      Except.ok
        { subcategory_counts := (subcategoryCounts g).take 20
          subcategory_percentages := (pctOfH (subcategoryCounts g) (g.length : ℤ)).take 20
          individual_counts := (individualCounts g).take 20
          individual_percentages := (pctOfH (individualCounts g) (nuniquePersons g : ℤ)).take 20
          individual_pop_percentages := ippHead
          household_counts := (householdCounts g).take 20
          household_percentages := (pctOfH (householdCounts g) (nuniqueHouseholds g : ℤ)).take 20
          household_pop_percentages := hppHead
          population_info := popInfo
          total_complaints := g.length
          total_individuals := nuniquePersons g
          total_households := nuniqueHouseholds g }

/-- App.py line 146: the rows of `df` whose grouping column equals `loc`. -/
def locGroup (df : List TRow) (col : LocationCol) (loc : String) : List TRow :=
  df.filter (fun r => col.colVal r == loc)

/-- The `for location in locations` loop of app.py lines 145-197: results are
accumulated in iteration order and the first raised exception aborts. -/
def analyzeLocs (df : List TRow) (col : LocationCol) (pop? : Option (List PopRow)) :
    List String → Except PyErr (List (String × LocStats))
  | [] => Except.ok []
  | loc :: rest =>
    match locStats (locGroup df col loc) (popLookup pop? loc) with
    | Except.error e => Except.error e
    | Except.ok ls =>
      match analyzeLocs df col pop? rest with
      | Except.error e => Except.error e
      | Except.ok tail => Except.ok ((loc, ls) :: tail)

/-- App.py lines 128-199: `analyze_by_location` over the distinct values of
the grouping column in appearance order (`unique()`, line 143). -/
def analyzeByLocation (df : List TRow) (col : LocationCol)
    (pop? : Option (List PopRow)) : Except PyErr (List (String × LocStats)) :=
  analyzeLocs df col pop? (uniqueFirst (df.map col.colVal))

/-- App.py lines 107-126: `perform_analysis` runs the location analysis once
per grouping dimension. -/
def performAnalysis (df : List TRow) (pop? : Option (List PopRow)) :
    Except PyErr Analysis :=
  match analyzeByLocation df LocationCol.atoll pop? with
  | Except.error e => Except.error e
  | Except.ok a =>
    match analyzeByLocation df LocationCol.island pop? with
    | Except.error e => Except.error e
    | Except.ok i => Except.ok { by_atoll := a, by_island := i }

/-- The body of the `try` block of `process_complaint_data` (app.py lines
58-99): read, validate, translate, analyse, and assemble totals from the
merged frame. -/
def pcdRun (input : RawInput) (trans? : Option TransTable)
    (pop? : Option (List PopRow)) : Except PyErr (Analysis × Nat × Nat × Nat) :=
  match readExcel input with
  | Except.error e => Except.error e
  | Except.ok t =>
    match loadTable t with
    | Except.error e => Except.error e
    | Except.ok rows =>
      match performAnalysis (applyTranslations rows trans?) pop? with
      | Except.error e => Except.error e
      | Except.ok res =>
        Except.ok (res, (applyTranslations rows trans?).length,
          nuniquePersons (applyTranslations rows trans?),
          nuniqueHouseholds (applyTranslations rows trans?))

/-- App.py lines 46-105: `process_complaint_data`, whose `try/except` converts
every raised exception into a `success = False` dictionary carrying only the
stringified error. -/
def processComplaintData (input : RawInput) (trans? : Option TransTable)
    (pop? : Option (List PopRow)) : PCDResult :=
  match pcdRun input trans? pop? with
  | Except.ok (res, tc, ti, th) =>
    { success := true, data := some res, total_complaints := some tc,
      total_individuals := some ti, total_households := some th, error := none }
  | Except.error e =>
    { success := false, data := none, total_complaints := none,
      total_individuals := none, total_households := none, error := some e.message }

/-- The three-row scenario table of the specification:
`(A,x,p1,h1,r1,IslandA,AtollA)`, `(A,x,p1,h2,r2,IslandA,AtollA)`,
`(B,y,p2,h1,r3,IslandA,AtollA)`. -/
def scenarioRows : List Row :=
  [⟨"A", "x", "p1", "h1", "r1", "IslandA", "AtollA"⟩,
   ⟨"A", "x", "p1", "h2", "r2", "IslandA", "AtollA"⟩,
   ⟨"B", "y", "p2", "h1", "r3", "IslandA", "AtollA"⟩]

/-- The scenario table after the no-translation-table step. -/
def scenarioG : List TRow := applyTranslations scenarioRows none

/-- A one-row valid primary table, as a raw upload. -/
def oneRowInput : RawInput :=
  RawInput.wellFormed
    { columns := requiredColumns
      rows := [[("category", "A"), ("subcategory", "x"), ("person_id", "p1"),
                ("household_id", "h1"), ("row_id", "r1"), ("island", "IslandA"),
                ("atoll", "AtollA")]] }

/-- A translation table that has both `_en` columns and a single entry for
`(A, x)`. -/
def mixedTrans : TransTable :=
  { hasCategoryEn := true
    hasSubcategoryEn := true
    entries := [⟨"A", "x", some "Ae", some "xe"⟩] }

/-- Two complaint rows, one matched by `mixedTrans` and one not. -/
def mixedRows : List Row :=
  [⟨"A", "x", "p1", "h1", "r1", "I1", "T1"⟩,
   ⟨"A", "y", "p2", "h2", "r2", "I1", "T1"⟩]

/-- A translation table with the join keys but neither `_en` column. -/
def keysOnlyTrans : TransTable :=
  { hasCategoryEn := false
    hasSubcategoryEn := false
    entries := [⟨"A", "x", none, none⟩] }

/-- A raw table having every required column except `household_id`. -/
def noHouseholdTable : RawTable :=
  { columns := ["category", "subcategory", "person_id", "row_id", "island", "atoll"]
    rows := [] }

/-- An empty raw table with exactly the required columns. -/
def emptyTable : RawTable := { columns := requiredColumns, rows := [] }

/-- A population table giving AtollA a population of 100 and 50 households. -/
def scenarioPop : List PopRow := [⟨"AtollA", some 100, some 50⟩]

/-- The first row produced by translating `mixedRows` with `keysOnlyTrans`. -/
def keysOnlyOut : TRow :=
  { toRow := ⟨"A", "x", "p1", "h1", "r1", "I1", "T1"⟩
    category_en := some "A"
    subcategory_en := some "x" }

/-- The per-location statistics computed for AtollA on the scenario table
with `scenarioPop` supplied (percentages in hundredths of a percent). -/
def scenarioLS : LocStats :=
  { subcategory_counts := [("x", 2), ("y", 1)]
    subcategory_percentages := [("x", 6667), ("y", 3333)]
    individual_counts := [("x", 1), ("y", 1)]
    individual_percentages := [("x", 5000), ("y", 5000)]
    individual_pop_percentages := [("x", 100), ("y", 100)]
    household_counts := [("x", 2), ("y", 1)]
    household_percentages := [("x", 10000), ("y", 5000)]
    household_pop_percentages := [("x", 400), ("y", 200)]
    population_info := some (some 100, some 50)
    total_complaints := 3
    total_individuals := 2
    total_households := 2 }

lemma mem_uniqueFirstAux {α : Type} [DecidableEq α] (a : α) (l : List α) :
    ∀ seen, a ∈ uniqueFirstAux seen l ↔ a ∈ l ∧ a ∉ seen := by
  induction l with
  | nil => intro seen; simp [uniqueFirstAux]
  | cons x xs ih =>
    intro seen
    by_cases hx : x ∈ seen
    · simp only [uniqueFirstAux, if_pos hx, ih seen, List.mem_cons]
      constructor
      · rintro ⟨h1, h2⟩
        exact ⟨Or.inr h1, h2⟩
      · rintro ⟨h1 | h1, h2⟩
        · exact absurd (h1 ▸ hx) h2
        · exact ⟨h1, h2⟩
    · simp only [uniqueFirstAux, if_neg hx, List.mem_cons, ih (x :: seen)]
      constructor
      · rintro (rfl | ⟨h1, h2⟩)
        · exact ⟨Or.inl rfl, hx⟩
        · exact ⟨Or.inr h1, fun hs => h2 (Or.inr hs)⟩
      · rintro ⟨rfl | h1, h2⟩
        · exact Or.inl rfl
        · by_cases hax : a = x
          · exact Or.inl hax
          · exact Or.inr ⟨h1, fun hs => hs.elim hax h2⟩

lemma nodup_uniqueFirstAux {α : Type} [DecidableEq α] (l : List α) :
    ∀ seen, (uniqueFirstAux seen l).Nodup := by
  induction l with
  | nil => intro seen; simp [uniqueFirstAux]
  | cons x xs ih =>
    intro seen
    by_cases hx : x ∈ seen
    · simpa only [uniqueFirstAux, if_pos hx] using ih seen
    · simp only [uniqueFirstAux, if_neg hx, List.nodup_cons]
      refine ⟨fun hmem => ?_, ih (x :: seen)⟩
      exact ((mem_uniqueFirstAux x xs (x :: seen)).mp hmem).2 (List.mem_cons_self x seen)

lemma mem_uniqueFirst {α : Type} [DecidableEq α] {a : α} {l : List α} :
    a ∈ uniqueFirst l ↔ a ∈ l := by
  simp [uniqueFirst, mem_uniqueFirstAux]

lemma nodup_uniqueFirst {α : Type} [DecidableEq α] (l : List α) :
    (uniqueFirst l).Nodup :=
  nodup_uniqueFirstAux l []

lemma toFinset_uniqueFirst {α : Type} [DecidableEq α] (l : List α) :
    (uniqueFirst l).toFinset = l.toFinset := by
  ext a
  simp [List.mem_toFinset, mem_uniqueFirst]

lemma length_uniqueFirst {α : Type} [DecidableEq α] (l : List α) :
    (uniqueFirst l).length = l.toFinset.card := by
  rw [← toFinset_uniqueFirst l, List.toFinset_card_of_nodup (nodup_uniqueFirst l)]

lemma mem_sortByCountDesc {p : String × Nat} {l : List (String × Nat)} :
    p ∈ sortByCountDesc l ↔ p ∈ l :=
  (List.perm_insertionSort countGE l).mem_iff

lemma length_sortByCountDesc (l : List (String × Nat)) :
    (sortByCountDesc l).length = l.length :=
  (List.perm_insertionSort countGE l).length_eq

lemma sorted_sortByCountDesc (l : List (String × Nat)) :
    List.Sorted countGE (sortByCountDesc l) :=
  List.sorted_insertionSort countGE l

lemma sorted_take_sortByCountDesc (l : List (String × Nat)) (n : Nat) :
    List.Sorted countGE ((sortByCountDesc l).take n) :=
  List.Pairwise.sublist (List.take_sublist n (sortByCountDesc l)) (sorted_sortByCountDesc l)

lemma take_drop_sortByCountDesc (l : List (String × Nat)) (n : Nat) :
    ∀ p ∈ (sortByCountDesc l).take n, ∀ q ∈ (sortByCountDesc l).drop n, q.2 ≤ p.2 := by
  have hs : List.Pairwise countGE
      ((sortByCountDesc l).take n ++ (sortByCountDesc l).drop n) := by
    rw [List.take_append_drop n (sortByCountDesc l)]
    exact sorted_sortByCountDesc l
  exact (List.pairwise_append.mp hs).2.2

lemma intRoundHalfEven_le {a b n : ℤ} (hb : 0 < b) (h : a ≤ b * n) :
    intRoundHalfEven a b ≤ n := by
  have hq : a / b ≤ n := by
    have h2 : a / b ≤ b * n / b := Int.ediv_le_ediv hb h
    rwa [Int.mul_ediv_cancel_left n (ne_of_gt hb)] at h2
  have hmod : b * (a / b) + a % b = a := Int.ediv_add_emod a b
  unfold intRoundHalfEven
  split_ifs with h1 h2 h3
  · exact hq
  · have hrpos : 0 < a % b := by linarith
    have hlt : b * (a / b) < b * n := by linarith
    have hq2 : a / b < n := lt_of_mul_lt_mul_left hlt (le_of_lt hb)
    linarith
  · exact hq
  · have h2r : 2 * (a % b) = b := le_antisymm (not_lt.mp h2) (not_lt.mp h1)
    have hrpos : 0 < a % b := by linarith
    have hlt : b * (a / b) < b * n := by linarith
    have hq2 : a / b < n := lt_of_mul_lt_mul_left hlt (le_of_lt hb)
    linarith

lemma pctH_le_10000 {c : Nat} {t : ℤ} (ht : 0 < t) (hc : (c : ℤ) ≤ t) :
    pctH c t ≤ 10000 := by
  refine intRoundHalfEven_le ht ?_
  have : (c : ℤ) * 10000 ≤ t * 10000 :=
    mul_le_mul_of_nonneg_right hc (by norm_num)
  linarith

lemma nuniquePersons_eq_card (g : List TRow) :
    nuniquePersons g = (g.map (fun r => r.person_id)).toFinset.card :=
  length_uniqueFirst _

lemma nuniqueHouseholds_eq_card (g : List TRow) :
    nuniqueHouseholds g = (g.map (fun r => r.household_id)).toFinset.card :=
  length_uniqueFirst _

lemma toFinset_card_map_filter_le (g : List TRow) (p : TRow → Bool) (f : TRow → String) :
    ((g.filter p).map f).toFinset.card ≤ (g.map f).toFinset.card := by
  apply Finset.card_le_card
  intro x hx
  simp only [List.mem_toFinset, List.mem_map] at hx ⊢
  obtain ⟨r, hr, rfl⟩ := hx
  exact ⟨r, (List.mem_filter.mp hr).1, rfl⟩

lemma locStats_ok {g : List TRow} {popInfo : Option (Option ℤ × Option ℤ)}
    {ls : LocStats} (h : locStats g popInfo = Except.ok ls) :
    ls.subcategory_counts = (subcategoryCounts g).take 20 ∧
    ls.individual_counts = (individualCounts g).take 20 ∧
    ls.household_counts = (householdCounts g).take 20 ∧
    ls.subcategory_percentages = (pctOfH (subcategoryCounts g) (g.length : ℤ)).take 20 ∧
    ls.individual_percentages = (pctOfH (individualCounts g) (nuniquePersons g : ℤ)).take 20 ∧
    ls.household_percentages = (pctOfH (householdCounts g) (nuniqueHouseholds g : ℤ)).take 20 ∧
    ls.total_complaints = g.length ∧
    ls.total_individuals = nuniquePersons g ∧
    ls.total_households = nuniqueHouseholds g := by
  unfold locStats at h
  split at h
  · exact Except.noConfusion h
  · split at h
    · exact Except.noConfusion h
    · injection h with h
      subst h
      exact ⟨rfl, rfl, rfl, rfl, rfl, rfl, rfl, rfl, rfl⟩

lemma analyzeLocs_mem {df : List TRow} {col : LocationCol} {pop? : Option (List PopRow)} :
    ∀ {locs : List String} {out : List (String × LocStats)},
      analyzeLocs df col pop? locs = Except.ok out →
      ∀ {loc : String} {ls : LocStats}, (loc, ls) ∈ out →
        locStats (locGroup df col loc) (popLookup pop? loc) = Except.ok ls := by
  intro locs
  induction locs with
  | nil =>
    intro out h loc ls hmem
    unfold analyzeLocs at h
    injection h with h
    subst h
    exact absurd hmem (List.not_mem_nil _)
  | cons x rest ih =>
    intro out h loc ls hmem
    unfold analyzeLocs at h
    split at h
    · exact Except.noConfusion h
    · rename_i ls0 hls0
      split at h
      · exact Except.noConfusion h
      · rename_i tail htail
        injection h with h
        subst h
        rcases List.mem_cons.mp hmem with heq | hmem2
        · have h1 : loc = x := congrArg Prod.fst heq
          have h2 : ls = ls0 := congrArg Prod.snd heq
          subst h1
          subst h2
          exact hls0
        · exact ih htail hmem2

/-- Claim C1: the specification says that when no population table is
supplied (or no entry matches, or the total is zero or absent) the analysis
still succeeds with empty population-percentage mappings.  The code instead
raises `AttributeError` by calling `.head(20)` on the empty dict, so on a
valid one-row table with no population table `process_complaint_data`
returns a failure result. -/
theorem c1_population_guard_crash :
    processComplaintData oneRowInput none none =
      { success := false, data := none, total_complaints := none,
        total_individuals := none, total_households := none,
        error := some "dict object has no attribute head" } := by
  decide

/-- Claim C2: the specification requires the per-row translation fallback
(an unmatched row keeps its original `subcategory` value).  The code applies
the fallback per column: on `mixedRows` with `mixedTrans`, the matched row
receives the English labels but the unmatched row receives a missing value
(`none`, pandas NaN) instead of its original values `"y"` / `"A"`. -/
theorem c2_per_row_fallback_fails :
    (applyTranslations mixedRows (some mixedTrans)).map
        (fun r => (r.subcategory_en, r.category_en)) =
      [(some "xe", some "Ae"), (none, none)] := by
  decide

/-- Claim C3: loading fails with a schema error exactly when at least one of
the seven required columns is absent; the error carries every missing column
(membership in the carried list is equivalent to being a required column
absent from the table); with no missing column loading succeeds. -/
theorem c3_schema_validation (t : RawTable) :
    (∀ c, c ∈ missingColumns t ↔ c ∈ requiredColumns ∧ c ∉ t.columns) ∧
    (missingColumns t ≠ [] →
      loadTable t = Except.error (PyErr.schemaError (missingColumns t))) ∧
    (missingColumns t = [] → loadTable t = Except.ok (t.rows.map parseRow)) := by
  refine ⟨?_, ?_, ?_⟩
  · intro c
    unfold missingColumns
    simp [List.mem_filter]
  · intro h
    unfold loadTable
    rw [if_pos h]
  · intro h
    unfold loadTable
    rw [if_neg (by simp [h])]

/-- Witness for C3: a table with every required column except `household_id`
fails with a schema error listing exactly `household_id`. -/
theorem c3_schema_validation_witness :
    loadTable noHouseholdTable = Except.error (PyErr.schemaError ["household_id"]) := by
  have h := (c3_schema_validation noHouseholdTable).2.1 (by decide)
  have hm : missingColumns noHouseholdTable = ["household_id"] := by decide
  rwa [hm] at h

/-- Claim C6: for every input (malformed ones included), the boundary of
`process_complaint_data` converts every raised exception into a structured
result: either success with data and all three totals and no error, or
failure with an error message and no partial data. -/
theorem c6_boundary_totality (input : RawInput) (trans? : Option TransTable)
    (pop? : Option (List PopRow)) :
    ((processComplaintData input trans? pop?).success = true ∧
      (processComplaintData input trans? pop?).data.isSome = true ∧
      (processComplaintData input trans? pop?).total_complaints.isSome = true ∧
      (processComplaintData input trans? pop?).total_individuals.isSome = true ∧
      (processComplaintData input trans? pop?).total_households.isSome = true ∧
      (processComplaintData input trans? pop?).error = none) ∨
    ((processComplaintData input trans? pop?).success = false ∧
      (processComplaintData input trans? pop?).error.isSome = true ∧
      (processComplaintData input trans? pop?).data = none ∧
      (processComplaintData input trans? pop?).total_complaints = none ∧
      (processComplaintData input trans? pop?).total_individuals = none ∧
      (processComplaintData input trans? pop?).total_households = none) := by
  unfold processComplaintData
  cases h : pcdRun input trans? pop? with
  | ok v =>
    obtain ⟨res, tc, ti, th⟩ := v
    exact Or.inl ⟨rfl, rfl, rfl, rfl, rfl, rfl⟩
  | error e =>
    exact Or.inr ⟨rfl, rfl, rfl, rfl, rfl, rfl⟩

/-- Claim C8: the aggregation is deterministic: two runs of
`perform_analysis` on equal inputs produce identical output structures,
ranked-list ordering included. -/
theorem c8_determinism (df1 : List TRow) (pop1 : Option (List PopRow))
    (df2 : List TRow) (pop2 : Option (List PopRow))
    (hdf : df1 = df2) (hpop : pop1 = pop2) :
    performAnalysis df1 pop1 = performAnalysis df2 pop2 := by
  subst hdf
  subst hpop
  rfl

/-- Witness for C8 at the scenario input. -/
theorem c8_determinism_witness :
    performAnalysis scenarioG (some scenarioPop) =
      performAnalysis scenarioG (some scenarioPop) :=
  c8_determinism scenarioG (some scenarioPop) scenarioG (some scenarioPop) rfl rfl

/-- Claim C9: a primary table with all seven required columns and zero rows
succeeds with all totals zero and empty by-atoll / by-island mappings (the
per-location loop body never runs, so the population-dict crash of C1 is not
reached). -/
theorem c9_empty_table (t : RawTable) (trans? : Option TransTable)
    (pop? : Option (List PopRow)) (hcols : ∀ c ∈ requiredColumns, c ∈ t.columns)
    (hrows : t.rows = []) :
    processComplaintData (RawInput.wellFormed t) trans? pop? =
      { success := true, data := some { by_atoll := [], by_island := [] },
        total_complaints := some 0, total_individuals := some 0,
        total_households := some 0, error := none } := by
  have hmiss : missingColumns t = [] := by
    unfold missingColumns
    rw [List.filter_eq_nil_iff]
    intro c hc
    simp [hcols c hc]
  have hload : loadTable t = Except.ok [] := by
    unfold loadTable
    rw [if_neg (by simp [hmiss]), hrows]
    rfl
  have htr : applyTranslations [] trans? = [] := by
    cases trans? <;> rfl
  unfold processComplaintData pcdRun
  simp only [readExcel, hload, htr]
  rfl

/-- Witness for C9 at the concrete empty table. -/
theorem c9_empty_table_witness :
    processComplaintData (RawInput.wellFormed emptyTable) none none =
      { success := true, data := some { by_atoll := [], by_island := [] },
        total_complaints := some 0, total_individuals := some 0,
        total_households := some 0, error := none } :=
  c9_empty_table emptyTable none none (by decide) rfl

/-- Claim C10: the translation fallback is applied at whole-column
granularity: when the supplied translation table has no `subcategory_en`
(resp. `category_en`) column, every merged row falls back to its original
`subcategory` (resp. `category`); when the column is present, a row with no
matching translation entry gets a missing value, not the fallback. -/
theorem c10_column_granularity_fallback (df : List Row) (t : TransTable) :
    (t.hasSubcategoryEn = false →
      ∀ r ∈ applyTranslations df (some t), r.subcategory_en = some r.subcategory) ∧
    (t.hasCategoryEn = false →
      ∀ r ∈ applyTranslations df (some t), r.category_en = some r.category) ∧
    (t.hasSubcategoryEn = true →
      ∀ r ∈ applyTranslations df (some t),
        (∀ e ∈ t.entries, ¬(e.category = r.category ∧ e.subcategory = r.subcategory)) →
        r.subcategory_en = none) := by
  have hmem : ∀ r ∈ applyTranslations df (some t),
      ∃ pr ∈ mergeTranslation df t, r = translatedRow t pr := by
    intro r hr
    simp only [applyTranslations, List.mem_map] at hr
    obtain ⟨pr, hpr, rfl⟩ := hr
    exact ⟨pr, hpr, rfl⟩
  refine ⟨?_, ?_, ?_⟩
  · intro hf r hr
    obtain ⟨pr, _, rfl⟩ := hmem r hr
    simp [translatedRow, hf]
  · intro hf r hr
    obtain ⟨pr, _, rfl⟩ := hmem r hr
    simp [translatedRow, hf]
  · intro ht r hr hnone
    obtain ⟨pr, hpr, rfl⟩ := hmem r hr
    have hp2 : pr.2 = none := by
      unfold mergeTranslation at hpr
      rw [List.mem_flatMap] at hpr
      obtain ⟨r0, hr0, hpr2⟩ := hpr
      rcases hfil : t.entries.filter
          (fun e => e.category == r0.category && e.subcategory == r0.subcategory) with
        _ | ⟨e, ms⟩
      · rw [hfil] at hpr2
        simp only [List.mem_singleton] at hpr2
        rw [hpr2]
      · rw [hfil] at hpr2
        simp only [List.mem_map] at hpr2
        obtain ⟨e2, he2, hpr3⟩ := hpr2
        exfalso
        have he2f : e2 ∈ t.entries.filter
            (fun e => e.category == r0.category && e.subcategory == r0.subcategory) := by
          rw [hfil]
          exact he2
        obtain ⟨hmem2, hb⟩ := List.mem_filter.mp he2f
        rw [Bool.and_eq_true] at hb
        obtain ⟨hb1, hb2⟩ := hb
        subst hpr3
        exact hnone e2 hmem2 ⟨beq_iff_eq.mp hb1, beq_iff_eq.mp hb2⟩
    simp [translatedRow, ht, hp2]

/-- Witness for C10: with `keysOnlyTrans` (no `_en` columns), the first
translated row of `mixedRows` keeps its original subcategory. -/
theorem c10_column_granularity_fallback_witness :
    keysOnlyOut.subcategory_en = some keysOnlyOut.subcategory :=
  (c10_column_granularity_fallback mixedRows keysOnlyTrans).1 rfl keysOnlyOut (by decide)

/-- Claim C4: in every location group, each subcategory entry of the
complaint distribution counts the records carrying that subcategory, with
percentage `count / group size * 100` rounded to 2 decimals; the individual
(resp. household) entry counts the distinct `person_id` (resp.
`household_id`) values among those records, with percentage against the
distinct ids of the whole group; every subcategory present in the group has
an entry in all three distributions; and the three-row scenario yields
counts x:2, y:1 (complaints), x:1, y:1 (individuals) and x:2, y:1
(households). -/
theorem c4_count_semantics (g : List TRow) :
    (∀ p ∈ subcategoryCounts g, p.2 = (bySubcat g p.1).length) ∧
    (∀ p ∈ pctOfH (subcategoryCounts g) (g.length : ℤ),
      p.2 = pctH (bySubcat g p.1).length (g.length : ℤ)) ∧
    (∀ p ∈ individualCounts g,
      p.2 = ((bySubcat g p.1).map (fun r => r.person_id)).toFinset.card) ∧
    (∀ p ∈ pctOfH (individualCounts g) (nuniquePersons g : ℤ),
      p.2 = pctH ((bySubcat g p.1).map (fun r => r.person_id)).toFinset.card
        ((g.map (fun r => r.person_id)).toFinset.card : ℤ)) ∧
    (∀ p ∈ householdCounts g,
      p.2 = ((bySubcat g p.1).map (fun r => r.household_id)).toFinset.card) ∧
    (∀ p ∈ pctOfH (householdCounts g) (nuniqueHouseholds g : ℤ),
      p.2 = pctH ((bySubcat g p.1).map (fun r => r.household_id)).toFinset.card
        ((g.map (fun r => r.household_id)).toFinset.card : ℤ)) ∧
    (∀ k ∈ g.filterMap (fun r => r.subcategory_en),
      (∃ p ∈ subcategoryCounts g, p.1 = k) ∧
      (∃ p ∈ individualCounts g, p.1 = k) ∧
      (∃ p ∈ householdCounts g, p.1 = k)) ∧
    subcategoryCounts scenarioG = [("x", 2), ("y", 1)] ∧
    individualCounts scenarioG = [("x", 1), ("y", 1)] ∧
    householdCounts scenarioG = [("x", 2), ("y", 1)] := by
  have hsub : ∀ p ∈ subcategoryCounts g, p.2 = (bySubcat g p.1).length := by
    intro p hp
    unfold subcategoryCounts at hp
    rw [mem_sortByCountDesc] at hp
    unfold subcategoryPairs at hp
    rw [List.mem_map] at hp
    obtain ⟨k, _, rfl⟩ := hp
    exact List.countP_eq_length_filter _ _
  have hind : ∀ p ∈ individualCounts g,
      p.2 = ((bySubcat g p.1).map (fun r => r.person_id)).toFinset.card := by
    intro p hp
    unfold individualCounts at hp
    rw [mem_sortByCountDesc] at hp
    unfold individualPairs at hp
    rw [List.mem_map] at hp
    obtain ⟨k, _, rfl⟩ := hp
    exact nuniquePersons_eq_card _
  have hhh : ∀ p ∈ householdCounts g,
      p.2 = ((bySubcat g p.1).map (fun r => r.household_id)).toFinset.card := by
    intro p hp
    unfold householdCounts at hp
    rw [mem_sortByCountDesc] at hp
    unfold householdPairs at hp
    rw [List.mem_map] at hp
    obtain ⟨k, _, rfl⟩ := hp
    exact nuniqueHouseholds_eq_card _
  refine ⟨hsub, ?_, hind, ?_, hhh, ?_, ?_, by decide, by decide, by decide⟩
  · intro p hp
    unfold pctOfH at hp
    rw [List.mem_map] at hp
    obtain ⟨q, hq, rfl⟩ := hp
    simp only []
    rw [hsub q hq]
  · intro p hp
    unfold pctOfH at hp
    rw [List.mem_map] at hp
    obtain ⟨q, hq, rfl⟩ := hp
    simp only []
    rw [hind q hq, nuniquePersons_eq_card]
  · intro p hp
    unfold pctOfH at hp
    rw [List.mem_map] at hp
    obtain ⟨q, hq, rfl⟩ := hp
    simp only []
    rw [hhh q hq, nuniqueHouseholds_eq_card]
  · intro k hk
    have hkey : k ∈ subcatKeys g := by
      unfold subcatKeys
      rw [mem_uniqueFirst]
      exact hk
    refine ⟨⟨(k, g.countP (fun r => r.subcategory_en == some k)), ?_, rfl⟩,
      ⟨(k, nuniquePersons (bySubcat g k)), ?_, rfl⟩,
      ⟨(k, nuniqueHouseholds (bySubcat g k)), ?_, rfl⟩⟩
    · unfold subcategoryCounts
      rw [mem_sortByCountDesc]
      unfold subcategoryPairs
      rw [List.mem_map]
      exact ⟨k, hkey, rfl⟩
    · unfold individualCounts
      rw [mem_sortByCountDesc]
      unfold individualPairs
      rw [List.mem_map]
      exact ⟨k, hkey, rfl⟩
    · unfold householdCounts
      rw [mem_sortByCountDesc]
      unfold householdPairs
      rw [List.mem_map]
      exact ⟨k, hkey, rfl⟩

/-- Witness for C4 at the scenario: the entry for x counts 2 complaint
records. -/
theorem c4_count_semantics_witness :
    ("x", 2) ∈ subcategoryCounts scenarioG ∧
      (("x", 2) : String × Nat).2 = (bySubcat scenarioG ("x", 2).1).length :=
  ⟨by decide, (c4_count_semantics scenarioG).1 ("x", 2) (by decide)⟩

/-- Claim C7: in every location group, each per-subcategory distinct-person
count is at most the distinct-person count of the group (so the maximum is too),
and every individual percentage, rounded to 2 decimals, is at most 100.00
(10000 hundredths of a percent). -/
theorem c7_individual_bounds (g : List TRow) :
    (∀ p ∈ individualCounts g, p.2 ≤ nuniquePersons g) ∧
    (∀ p ∈ pctOfH (individualCounts g) (nuniquePersons g : ℤ), p.2 ≤ 10000) := by
  have hcount : ∀ p ∈ individualCounts g, p.2 ≤ nuniquePersons g := by
    intro p hp
    unfold individualCounts at hp
    rw [mem_sortByCountDesc] at hp
    unfold individualPairs at hp
    rw [List.mem_map] at hp
    obtain ⟨k, _, rfl⟩ := hp
    simp only [nuniquePersons_eq_card]
    unfold bySubcat
    exact toFinset_card_map_filter_le g _ _
  refine ⟨hcount, ?_⟩
  intro p hp
  unfold pctOfH at hp
  rw [List.mem_map] at hp
  obtain ⟨q, hq, rfl⟩ := hp
  have hpos : 0 < nuniquePersons g := by
    have hq2 := hq
    unfold individualCounts at hq2
    rw [mem_sortByCountDesc] at hq2
    unfold individualPairs at hq2
    rw [List.mem_map] at hq2
    obtain ⟨k, hk, _⟩ := hq2
    unfold subcatKeys at hk
    rw [mem_uniqueFirst] at hk
    rw [List.mem_filterMap] at hk
    obtain ⟨r, hr, _⟩ := hk
    rw [nuniquePersons_eq_card, Finset.card_pos]
    exact ⟨r.person_id, List.mem_toFinset.mpr (List.mem_map.mpr ⟨r, hr, rfl⟩)⟩
  exact pctH_le_10000 (by exact_mod_cast hpos) (by exact_mod_cast hcount q hq)

/-- Witness for C7 at the scenario: subcategory x is filed by 1 person, at
most the 2 distinct persons of the group. -/
theorem c7_individual_bounds_witness :
    ("x", 1) ∈ individualCounts scenarioG ∧
      (("x", 1) : String × Nat).2 ≤ nuniquePersons scenarioG :=
  ⟨by decide, (c7_individual_bounds scenarioG).1 ("x", 1) (by decide)⟩

/-- Claim C5: in every successful location analysis, each of the three
retained count lists is the 20-entry prefix of the descending-sorted full
distribution: it is sorted descending, its length is the minimum of 20 and
the number of distinct subcategories of the group, and every retained count
is at least every excluded count. -/
theorem c5_top20_truncation (df : List TRow) (col : LocationCol)
    (pop? : Option (List PopRow)) (out : List (String × LocStats))
    (hout : analyzeByLocation df col pop? = Except.ok out)
    (loc : String) (ls : LocStats) (hmem : (loc, ls) ∈ out) :
    (ls.subcategory_counts = (subcategoryCounts (locGroup df col loc)).take 20 ∧
      List.Sorted countGE ls.subcategory_counts ∧
      ls.subcategory_counts.length = min 20 (subcategoryCounts (locGroup df col loc)).length ∧
      ∀ p ∈ ls.subcategory_counts,
        ∀ q ∈ (subcategoryCounts (locGroup df col loc)).drop 20, q.2 ≤ p.2) ∧
    (ls.individual_counts = (individualCounts (locGroup df col loc)).take 20 ∧
      List.Sorted countGE ls.individual_counts ∧
      ls.individual_counts.length = min 20 (individualCounts (locGroup df col loc)).length ∧
      ∀ p ∈ ls.individual_counts,
        ∀ q ∈ (individualCounts (locGroup df col loc)).drop 20, q.2 ≤ p.2) ∧
    (ls.household_counts = (householdCounts (locGroup df col loc)).take 20 ∧
      List.Sorted countGE ls.household_counts ∧
      ls.household_counts.length = min 20 (householdCounts (locGroup df col loc)).length ∧
      ∀ p ∈ ls.household_counts,
        ∀ q ∈ (householdCounts (locGroup df col loc)).drop 20, q.2 ≤ p.2) ∧
    (subcategoryCounts (locGroup df col loc)).length =
      (subcatKeys (locGroup df col loc)).length := by
  unfold analyzeByLocation at hout
  have hls := analyzeLocs_mem hout hmem
  obtain ⟨h1, h2, h3, _⟩ := locStats_ok hls
  refine ⟨⟨h1, ?_, ?_, ?_⟩, ⟨h2, ?_, ?_, ?_⟩, ⟨h3, ?_, ?_, ?_⟩, ?_⟩
  · rw [h1]
    unfold subcategoryCounts
    exact sorted_take_sortByCountDesc _ 20
  · rw [h1, List.length_take]
  · rw [h1]
    unfold subcategoryCounts
    exact take_drop_sortByCountDesc _ 20
  · rw [h2]
    unfold individualCounts
    exact sorted_take_sortByCountDesc _ 20
  · rw [h2, List.length_take]
  · rw [h2]
    unfold individualCounts
    exact take_drop_sortByCountDesc _ 20
  · rw [h3]
    unfold householdCounts
    exact sorted_take_sortByCountDesc _ 20
  · rw [h3, List.length_take]
  · rw [h3]
    unfold householdCounts
    exact take_drop_sortByCountDesc _ 20
  · unfold subcategoryCounts
    rw [length_sortByCountDesc]
    unfold subcategoryPairs
    exact List.length_map _ _

/-- Witness for C5 at the scenario analysis by atoll with population data
supplied for AtollA. -/
theorem c5_top20_truncation_witness :
    List.Sorted countGE scenarioLS.subcategory_counts ∧
      scenarioLS.subcategory_counts.length =
        min 20 (subcategoryCounts (locGroup scenarioG LocationCol.atoll "AtollA")).length := by
  have h := c5_top20_truncation scenarioG LocationCol.atoll (some scenarioPop)
    [("AtollA", scenarioLS)] rfl "AtollA" scenarioLS (by decide)
  exact ⟨h.1.2.1, h.1.2.2.1⟩

end PopConv
